import Mathlib

/-!
Verification of the preference-learning and scoring core of the ai-news-agent
repository (`src/ai_news_agent/db.py` and `src/ai_news_agent/preferences.py`).

Modelling conventions:
* Python floats are embedded as rationals (`ℚ`); the learning delta `0.1`
  becomes `1/10`. Where a claim turns on the exact IEEE-754 value of an
  accumulated weight, a second, binary64-exact model (`rnEven`, `fpAdd`,
  `fpMul` and the `fp`-prefixed pipeline) computes with dyadic rationals
  rounded to 53 significant bits, nearest, ties to even.
* The SQLite table `user_preferences` (UNIQUE(category, key)) is embedded as an
  association list from `(category, key)` to `(weight, sample_count)`;
  `update_preference` performs the same SELECT-then-UPDATE-or-INSERT logic as
  the Python function.
* The remote Claude classification call `_classify_with_claude` is embedded as
  an explicit oracle parameter `Oracle`: the oracle receives the article, the
  category name and the option vocabulary, and returns the list of labels (an
  empty list models the documented failure behaviour).
-/

/-- A stored preference value: `{weight, sample_count}` from `db.py`. -/
structure Pref where
  weight : ℚ
  sample_count : ℕ
  deriving Repr, DecidableEq

/-- The `user_preferences` table: rows keyed by `(category, key)`. -/
abbrev PrefStore := List ((String × String) × Pref)

/-- `SELECT weight, sample_count FROM user_preferences WHERE category = ? AND key = ?`. -/
def getPref : PrefStore → String × String → Option Pref
  | [], _ => none
  | e :: rest, ck => if e.1 = ck then some e.2 else getPref rest ck

/-- `UPDATE user_preferences SET weight = ?, sample_count = ? WHERE category = ? AND key = ?`:
rewrites the value of every row whose key matches (at most one, by UNIQUE). -/
def setPref (s : PrefStore) (ck : String × String) (p : Pref) : PrefStore :=
  s.map (fun e => if e.1 = ck then (e.1, p) else e)

/-- `max(-1.0, min(1.0, x))` from `update_preference` in `db.py`. -/
def clamp (x : ℚ) : ℚ := max (-1) (min 1 x)

/-- `update_preference(category, key, delta)` from `db.py`: SELECT the existing
row; if present, clamp `weight + delta` and increment `sample_count`; else
INSERT a new row with clamped `delta` and `sample_count = 1`. -/
def update_preference (s : PrefStore) (category key : String) (delta : ℚ) : PrefStore :=
  match getPref s (category, key) with
  | some existing =>
      setPref s (category, key) ⟨clamp (existing.weight + delta), existing.sample_count + 1⟩
  | none => s ++ [((category, key), ⟨clamp delta, 1⟩)]

/-- `get_all_preferences()` from `db.py`: the full table as a mapping. -/
def get_all_preferences (s : PrefStore) : PrefStore := s

/-- `reset_preferences()` from `db.py`: `DELETE FROM user_preferences`. -/
def reset_preferences (_ : PrefStore) : PrefStore := []

/-- A sequence of `update_preference` calls on a single `(category, key)`. -/
def applyDeltas (s : PrefStore) (category key : String) (deltas : List ℚ) : PrefStore :=
  deltas.foldl (fun acc d => update_preference acc category key d) s

-- ===== classifier (preferences.py) =====

/-- An article record, restricted to the fields read by the core
(`title`, `summary`, `source`, and the popularity column `score`). -/
structure Article where
  title : String
  summary : String
  source : String
  score : Option Int
  deriving Repr, DecidableEq

/-- Character-wise lower-casing, the embedding of Python `str.lower()` (the
vocabularies and inputs of interest are ASCII, where the two agree). -/
def lowerString (s : String) : String := String.mk (s.data.map Char.toLower)

/-- `f"{title} {summary}".lower()` from the classifier functions. -/
def articleText (a : Article) : String :=
  lowerString (a.title ++ " " ++ a.summary)

/-- Does `kw` occur at the front of `t`? (helper for substring search). -/
def occursAtFront : List Char → List Char → Bool
  | [], _ => true
  | _ :: _, [] => false
  | c :: cs, d :: ds => c == d && occursAtFront cs ds

/-- Does `kw` occur anywhere in `t`? (Python `kw in text` on strings). -/
def occursIn (kw : List Char) : List Char → Bool
  | [] => occursAtFront kw []
  | d :: ds => occursAtFront kw (d :: ds) || occursIn kw ds

/-- Python substring test `kw in text`. -/
def containsSubstr (text kw : String) : Bool :=
  occursIn kw.toList text.toList

/-- `THEME_KEYWORDS` from `preferences.py`, in source (insertion) order. -/
def THEME_KEYWORDS : List (String × List String) :=
  [("open_source", ["open source", "github", "apache", "mit license", "open-source", "open weights"]),
   ("reasoning", ["reasoning", "o1", "r1", "chain of thought", "thinking", "cot"]),
   ("benchmarks", ["benchmark", "sota", "performance", "evaluation", "leaderboard"]),
   ("product_launch", ["launch", "announce", "available now", "release", "introducing"]),
   ("funding", ["funding", "raised", "series a", "series b", "investment", "valuation"]),
   ("safety", ["safety", "alignment", "harmful", "responsible ai", "guardrails"]),
   ("multimodal", ["vision", "image", "video", "audio", "multimodal"]),
   ("agents", ["agent", "autonomous", "tool use", "function calling", "agentic"]),
   ("training", ["training", "fine-tuning", "rlhf", "pre-training", "distillation"]),
   ("efficiency", ["efficient", "faster", "cheaper", "optimization", "quantization"]),
   ("enterprise", ["enterprise", "business", "b2b", "api", "production"]),
   ("research", ["paper", "arxiv", "study", "research", "novel"])]

/-- `TYPE_KEYWORDS` from `preferences.py`, in source (insertion) order. -/
def TYPE_KEYWORDS : List (String × List String) :=
  [("research_paper", ["arxiv", "paper", "we propose", "we present", "study shows"]),
   ("technical_deep_dive", ["architecture", "implementation", "how it works", "under the hood", "technical"]),
   ("opinion_piece", ["opinion", "why i", "thoughts on", "my take", "reflection"]),
   ("press_release", ["announces", "proud to", "excited to", "thrilled to", "pleased to"]),
   ("tutorial", ["how to", "guide", "tutorial", "step by step", "walkthrough"]),
   ("news", ["breaking", "reportedly", "according to", "sources say"])]

/-- `INSIGHT_KEYWORDS` from `preferences.py`, in source (insertion) order. -/
def INSIGHT_KEYWORDS : List (String × List String) :=
  [("technical_details", ["architecture", "parameters", "training", "inference", "model size"]),
   ("practical_takeaways", ["you can", "try this", "use case", "application", "how to use"]),
   ("industry_analysis", ["market", "competition", "landscape", "trend", "industry"]),
   ("hot_take", ["controversial", "unpopular opinion", "i believe", "actually", "hot take"])]

/-- The remote classification call `_classify_with_claude(article, category,
options)`, embedded as an oracle: its response is the list of labels, and `[]`
models the documented failure behaviour (malformed response, request error). -/
abbrev Oracle := Article → String → List String → List String

/-- Keyword pass of `extract_themes`: tags whose keyword list has a phrase
occurring in the lowered text, in table order. -/
def keywordThemes (a : Article) : List String :=
  (THEME_KEYWORDS.filter
    (fun tk => tk.2.any (fun kw => containsSubstr (articleText a) kw))).map (fun tk => tk.1)

/-- `extract_themes(article)` from `preferences.py`: keyword pass, Claude
fallback only when the keyword pass is empty, then truncate to 3. -/
def extract_themes (o : Oracle) (a : Article) : List String :=
  let themes := keywordThemes a
  (if themes.isEmpty then o a "themes" (THEME_KEYWORDS.map (fun tk => tk.1)) else themes).take 3

/-- Keyword pass of `classify_type`: the first table entry with a phrase match. -/
def keywordTypeMatch (a : Article) : Option String :=
  (TYPE_KEYWORDS.find?
    (fun tk => tk.2.any (fun kw => containsSubstr (articleText a) kw))).map (fun tk => tk.1)

/-- `classify_type(article)` from `preferences.py`: first keyword match wins;
otherwise the Claude fallback's first label, defaulting to "news". -/
def classify_type (o : Oracle) (a : Article) : String :=
  match keywordTypeMatch a with
  | some t => t
  | none =>
      match o a "type" (TYPE_KEYWORDS.map (fun tk => tk.1)) with
      | r :: _ => r
      | [] => "news"

/-- Keyword pass of `assess_insights`. -/
def keywordInsights (a : Article) : List String :=
  (INSIGHT_KEYWORDS.filter
    (fun tk => tk.2.any (fun kw => containsSubstr (articleText a) kw))).map (fun tk => tk.1)

/-- `assess_insights(article)` from `preferences.py`: keyword pass, Claude
fallback only when the keyword pass is empty, then truncate to 2. -/
def assess_insights (o : Oracle) (a : Article) : List String :=
  let insights := keywordInsights a
  (if insights.isEmpty then o a "insights" (INSIGHT_KEYWORDS.map (fun tk => tk.1)) else insights).take 2

-- ===== learning engine (preferences.py) =====

/-- The `articles` table restricted to rows read by the core, keyed by id. -/
abbrev ArticleTable := List (Nat × Article)

/-- `get_article_by_id(article_id)` from `db.py`. -/
def get_article_by_id : ArticleTable → Nat → Option Article
  | [], _ => none
  | (i, a) :: rest, article_id =>
      if i = article_id then some a else get_article_by_id rest article_id

/-- `learn_from_rating(article_id, rating)` from `preferences.py`: neutral is a
no-op; a missing article is a silent no-op; otherwise `signal * 0.1` is applied
to the source key, every extracted theme, the type, and every insight. -/
def learn_from_rating (o : Oracle) (articles : ArticleTable) (s : PrefStore)
    (article_id : Nat) (rating : String) : PrefStore :=
  if rating = "neutral" then s
  else
    match get_article_by_id articles article_id with
    | none => s
    | some a =>
        let signal : ℚ := if rating = "up" then 1 else -1
        let s := update_preference s "source" a.source (signal * (1/10))
        let s := (extract_themes o a).foldl
          (fun acc theme => update_preference acc "theme" theme (signal * (1/10))) s
        let s := update_preference s "type" (classify_type o a) (signal * (1/10))
        (assess_insights o a).foldl
          (fun acc insight => update_preference acc "insight" insight (signal * (1/10))) s

-- ===== scoring engine (preferences.py) =====

/-- Source term of `score_article`: `weight * 2.0` once `sample_count >= 10`. -/
def sourceContribution (prefs : PrefStore) (a : Article) : ℚ :=
  match getPref prefs ("source", a.source) with
  | some p => if 10 ≤ p.sample_count then p.weight * 2 else 0
  | none => 0

/-- Per-theme term of `score_article`: `weight` once `sample_count >= 5`. -/
def themeTerm (prefs : PrefStore) (theme : String) : ℚ :=
  match getPref prefs ("theme", theme) with
  | some p => if 5 ≤ p.sample_count then p.weight else 0
  | none => 0

/-- Theme contribution of `score_article`: summed over the extracted themes. -/
def themeContribution (o : Oracle) (prefs : PrefStore) (a : Article) : ℚ :=
  ((extract_themes o a).map (themeTerm prefs)).sum

/-- Type term of `score_article`: `weight * 1.5` once `sample_count >= 5`. -/
def typeTerm (prefs : PrefStore) (t : String) : ℚ :=
  match getPref prefs ("type", t) with
  | some p => if 5 ≤ p.sample_count then p.weight * (3/2) else 0
  | none => 0

/-- Type contribution of `score_article`, at the classified type tag. -/
def typeContribution (o : Oracle) (prefs : PrefStore) (a : Article) : ℚ :=
  typeTerm prefs (classify_type o a)

/-- Per-insight term of `score_article`: `weight * 0.5` once `sample_count >= 5`. -/
def insightTerm (prefs : PrefStore) (insight : String) : ℚ :=
  match getPref prefs ("insight", insight) with
  | some p => if 5 ≤ p.sample_count then p.weight * (1/2) else 0
  | none => 0

/-- Insight contribution of `score_article`: summed over the assessed insights. -/
def insightContribution (o : Oracle) (prefs : PrefStore) (a : Article) : ℚ :=
  ((assess_insights o a).map (insightTerm prefs)).sum

/-- Popularity baseline of `score_article`: `(article.get("score") or 0) * 0.001`. -/
def popularityTerm (a : Article) : ℚ :=
  ((a.score.getD 0 : Int) : ℚ) * (1/1000)

/-- `score_article(article, preferences)` from `preferences.py` with an explicit
preferences snapshot: the sum of the source, theme, type and insight
contributions plus the popularity baseline. -/
def score_article (o : Oracle) (a : Article) (prefs : PrefStore) : ℚ :=
  sourceContribution prefs a + themeContribution o prefs a +
    typeContribution o prefs a + insightContribution o prefs a + popularityTerm a

-- ===== rating boundary (db.py) =====

/-- The `article_ratings` table: at most one rating per article id. -/
abbrev RatingsTable := List (Nat × String)

/-- The `INSERT ... ON CONFLICT(article_id) DO UPDATE` upsert in `save_rating`:
last write wins for the row keyed by `article_id`. -/
def upsertRating : RatingsTable → Nat → String → RatingsTable
  | [], article_id, rating => [(article_id, rating)]
  | e :: rest, article_id, rating =>
      if e.1 = article_id then (article_id, rating) :: rest
      else e :: upsertRating rest article_id rating

/-- `save_rating(article_id, rating)` from `db.py`: raise `ValueError` unless
the rating is `"up"`, `"down"` or `"neutral"`; otherwise upsert the row. -/
def save_rating (tbl : RatingsTable) (article_id : Nat) (rating : String) :
    Except String RatingsTable :=
  if rating = "up" ∨ rating = "down" ∨ rating = "neutral" then
    Except.ok (upsertRating tbl article_id rating)
  else Except.error ("Invalid rating: " ++ rating)

/-- The table a caller observes after `save_rating`: unchanged when the call
raises. -/
def runSave (tbl : RatingsTable) (article_id : Nat) (rating : String) : RatingsTable :=
  match save_rating tbl article_id rating with
  | Except.ok t => t
  | Except.error _ => tbl

-- ===== concrete scenario data =====

/-- An always-failing (or never-consulted) remote classifier: the documented
degraded mode in which every fallback call yields `[]`. -/
def oracleNone : Oracle := fun _ _ _ => []

/-- A remote classifier that answers `["x"]` to every request. -/
def oracleX : Oracle := fun _ _ _ => ["x"]

/-- The spec scenario article: `{title: "New Open Source LLM Released",
summary: "", source: "hackernews", popularity_score: 100}`. -/
def A2 : Article := ⟨"New Open Source LLM Released", "", "hackernews", some 100⟩

/-- An articles table holding the scenario article under id 1. -/
def articles2 : ArticleTable := [(1, A2)]

/-- An article matching four theme keyword lists: `open_source`,
`product_launch`, `agents` and `research` (via the phrase "paper"). -/
def ce6 : Article := ⟨"open source launch agent paper", "", "x", none⟩

/-- An article whose text matches no keyword of any category. -/
def ce7 : Article := ⟨"zzz", "", "nosource", none⟩

/-- A snapshot with an activated preference for theme `"x"`. -/
def prefsX : PrefStore := [(("theme", "x"), ⟨1, 10⟩)]

/-- An article whose keyword pass succeeds for all three categories:
themes via "open source", type via "paper", insights via "market". -/
def a7 : Article := ⟨"Open Source paper market", "", "src", none⟩

/-- A store with one below-threshold entry per category except type. -/
def prefs3 : PrefStore :=
  [(("source", "hn"), ⟨1, 9⟩), (("theme", "agents"), ⟨-1, 4⟩),
   (("type", "news"), ⟨1, 5⟩), (("insight", "hot_take"), ⟨1, 2⟩)]

/-- An article from source `"hn"`. -/
def a3 : Article := ⟨"t", "", "hn", none⟩

/-- The deltas of the adversarial rating sequence: +1.0 and -1.0 signals,
scaled by 0.1 as in `learn_from_rating`, repeated 100 times. -/
def seq100 : List ℚ := (List.replicate 100 [(1 : ℚ)/10, -((1 : ℚ)/10)]).flatten

/-- A store with one rated source entry, for the sample-count witness. -/
def s4 : PrefStore := [(("source", "hn"), ⟨1/2, 3⟩)]

-- ===== binary64 model (for the concrete learning scenario) =====

/-- Fuel-bounded integer base-2 logarithm: `natLog2F fuel n` is the floor of
`log2 n` for `n ≥ 1` whenever `fuel` bounds the recursion depth. -/
def natLog2F : ℕ → ℕ → ℕ
  | 0, _ => 0
  | fuel + 1, n => if n ≤ 1 then 0 else natLog2F fuel (n / 2) + 1

/-- Fuel-bounded count of doublings: the smallest `k` with `n * 2 ^ k ≥ d`. -/
def pow2GEF : ℕ → ℕ → ℕ → ℕ
  | 0, _, _ => 0
  | fuel + 1, n, d => if d ≤ n then 0 else pow2GEF fuel (2 * n) d + 1

/-- Floor of `log2 (n / d)` for a positive rational `n / d`, valid for
magnitudes between `2 ^ (-4096)` and `2 ^ 4096` (amply covering binary64). -/
def log2floorPos (n d : ℕ) : ℤ :=
  if d ≤ n then Int.ofNat (natLog2F 4096 (n / d))
  else -(Int.ofNat (pow2GEF 4096 n d))

/-- Round the fraction `a / b` to the nearest integer, ties to even. -/
def rnInt (a b : ℕ) : ℕ :=
  let q := a / b
  let r := a % b
  if 2 * r < b then q
  else if b < 2 * r then q + 1
  else if q % 2 = 0 then q else q + 1

/-- Round a positive rational to 53 significant bits, nearest, ties to even:
the scaled mantissa `x * 2 ^ (52 - floor (log2 x))` lies in `[2 ^ 52, 2 ^ 53)`
and is rounded to an integer. -/
def rnEvenPos (x : ℚ) : ℚ :=
  let n := x.num.toNat
  let d := x.den
  let t : ℤ := 52 - log2floorPos n d
  if 0 ≤ t then
    mkRat (Int.ofNat (rnInt (n * 2 ^ t.toNat) d)) (2 ^ t.toNat)
  else
    ((rnInt n (d * 2 ^ (-t).toNat) * 2 ^ (-t).toNat : ℕ) : ℚ)

/-- Rounding of an exact rational to the nearest IEEE-754 binary64 value
(round to nearest, ties to even; the exponent is unbounded, which agrees with
binary64 on the magnitudes arising below — no overflow or subnormals). -/
def rnEven (q : ℚ) : ℚ :=
  if q = 0 then 0 else if q < 0 then -(rnEvenPos (-q)) else rnEvenPos q

/-- Binary64 addition: exact sum of two representable values, rounded. -/
def fpAdd (x y : ℚ) : ℚ := rnEven (x + y)

/-- Binary64 multiplication: exact product of two representable values,
rounded. -/
def fpMul (x y : ℚ) : ℚ := rnEven (x * y)

/-- The binary64 value of the literal `0.1` (`3602879701896397 * 2 ^ (-55)`). -/
def fp01 : ℚ := rnEven (1/10)

/-- The binary64 value of the literal `0.001`. -/
def fp0001 : ℚ := rnEven (1/1000)

/-- `update_preference` under binary64 arithmetic: the Python float addition
`existing["weight"] + delta` rounds, and `max`/`min` compare exactly. -/
def fpUpdatePreference (s : PrefStore) (category key : String) (delta : ℚ) : PrefStore :=
  match getPref s (category, key) with
  | some existing =>
      setPref s (category, key)
        ⟨max (-1) (min 1 (fpAdd existing.weight delta)), existing.sample_count + 1⟩
  | none => s ++ [((category, key), ⟨max (-1) (min 1 delta), 1⟩)]

/-- `learn_from_rating` under binary64 arithmetic (`signal * 0.1` is an exact
sign flip of the binary64 `0.1`). -/
def fpLearnFromRating (o : Oracle) (articles : ArticleTable) (s : PrefStore)
    (article_id : Nat) (rating : String) : PrefStore :=
  if rating = "neutral" then s
  else
    match get_article_by_id articles article_id with
    | none => s
    | some a =>
        let signal : ℚ := if rating = "up" then 1 else -1
        let delta := fpMul signal fp01
        let s := fpUpdatePreference s "source" a.source delta
        let s := (extract_themes o a).foldl
          (fun acc theme => fpUpdatePreference acc "theme" theme delta) s
        let s := fpUpdatePreference s "type" (classify_type o a) delta
        (assess_insights o a).foldl
          (fun acc insight => fpUpdatePreference acc "insight" insight delta) s

/-- `n` repetitions of `learn_from_rating(1, "up")` on the scenario article
under binary64 arithmetic, with the failing remote classifier. -/
def fpLearnN : Nat → PrefStore → PrefStore
  | 0, s => s
  | n + 1, s => fpLearnN n (fpLearnFromRating oracleNone articles2 s 1 "up")

/-- The source increment of `score_article` under binary64 arithmetic. -/
def fpSourceTerm (prefs : PrefStore) (a : Article) : ℚ :=
  match getPref prefs ("source", a.source) with
  | some p => if 10 ≤ p.sample_count then fpMul p.weight 2 else 0
  | none => 0

/-- The per-theme increment of `score_article` under binary64 arithmetic. -/
def fpThemeTerm (prefs : PrefStore) (theme : String) : ℚ :=
  match getPref prefs ("theme", theme) with
  | some p => if 5 ≤ p.sample_count then p.weight else 0
  | none => 0

/-- `score_article` under binary64 arithmetic: the accumulator `score` starts
at 0.0 and the increments are rounded additions, in source order (the
multipliers 2.0, 1.5 and 0.5 are exact binary64 values). -/
def fpScore (o : Oracle) (a : Article) (prefs : PrefStore) : ℚ :=
  let s0 : ℚ := 0
  let s1 := match getPref prefs ("source", a.source) with
    | some p => if 10 ≤ p.sample_count then fpAdd s0 (fpMul p.weight 2) else s0
    | none => s0
  let s2 := (extract_themes o a).foldl (fun acc t =>
      match getPref prefs ("theme", t) with
      | some p => if 5 ≤ p.sample_count then fpAdd acc p.weight else acc
      | none => acc) s1
  let s3 := match getPref prefs ("type", classify_type o a) with
    | some p => if 5 ≤ p.sample_count then fpAdd s2 (fpMul p.weight (3/2)) else s2
    | none => s2
  let s4 := (assess_insights o a).foldl (fun acc i =>
      match getPref prefs ("insight", i) with
      | some p => if 5 ≤ p.sample_count then fpAdd acc (fpMul p.weight (1/2)) else acc
      | none => acc) s3
  fpAdd s4 (fpMul ((a.score.getD 0 : ℤ) : ℚ) fp0001)

-- ===== basic store lemmas =====

theorem clamp_lower (x : ℚ) : -1 ≤ clamp x := le_max_left _ _

theorem clamp_upper (x : ℚ) : clamp x ≤ 1 :=
  max_le (by norm_num) (min_le_left _ _)

theorem getPref_setPref_self {s : PrefStore} {ck : String × String} {q : Pref}
    (h : getPref s ck = some q) (p : Pref) : getPref (setPref s ck p) ck = some p := by
  induction s with
  | nil => simp [getPref] at h
  | cons e rest ih =>
      by_cases he : e.1 = ck
      · simp [setPref, getPref, he]
      · simp [getPref, he] at h
        simpa [setPref, getPref, he] using ih h

theorem getPref_setPref_ne {s : PrefStore} {ck ck' : String × String} (p : Pref)
    (h : ck' ≠ ck) : getPref (setPref s ck p) ck' = getPref s ck' := by
  have hsym : ¬ck = ck' := fun hc => h hc.symm
  induction s with
  | nil => rfl
  | cons e rest ih =>
      by_cases he : e.1 = ck
      · simpa [setPref, getPref, he, hsym] using ih
      · by_cases he' : e.1 = ck'
        · simp [setPref, getPref, he, he', h]
        · simpa [setPref, getPref, he, he'] using ih

theorem getPref_append_of_none {s : PrefStore} {ck : String × String}
    (h : getPref s ck = none) (l : PrefStore) :
    getPref (s ++ l) ck = getPref l ck := by
  induction s with
  | nil => rfl
  | cons e rest ih =>
      by_cases he : e.1 = ck
      · simp [getPref, he] at h
      · simp [getPref, he] at h ⊢
        exact ih h

theorem getPref_append_singleton_ne {s : PrefStore} {ck ck' : String × String} (p : Pref)
    (h : ck' ≠ ck) : getPref (s ++ [(ck, p)]) ck' = getPref s ck' := by
  induction s with
  | nil => simp [getPref, Ne.symm h]
  | cons e rest ih =>
      by_cases he : e.1 = ck'
      · simp [getPref, he]
      · simpa [getPref, he] using ih

theorem getPref_update_of_some {s : PrefStore} {c k : String} {p : Pref}
    (h : getPref s (c, k) = some p) (d : ℚ) :
    getPref (update_preference s c k d) (c, k) =
      some ⟨clamp (p.weight + d), p.sample_count + 1⟩ := by
  unfold update_preference
  rw [h]
  exact getPref_setPref_self h _

theorem getPref_update_of_none {s : PrefStore} {c k : String}
    (h : getPref s (c, k) = none) (d : ℚ) :
    getPref (update_preference s c k d) (c, k) = some ⟨clamp d, 1⟩ := by
  unfold update_preference
  rw [h]
  rw [getPref_append_of_none h]
  simp [getPref]

theorem getPref_update_ne {s : PrefStore} {c k : String} {ck' : String × String}
    (h : ck' ≠ (c, k)) (d : ℚ) :
    getPref (update_preference s c k d) ck' = getPref s ck' := by
  unfold update_preference
  cases hg : getPref s (c, k) with
  | some p => exact getPref_setPref_ne _ h
  | none => exact getPref_append_singleton_ne _ h

theorem exists_bounded_after_update (s : PrefStore) (c k : String) (d : ℚ) :
    ∃ p, getPref (update_preference s c k d) (c, k) = some p ∧
      -1 ≤ p.weight ∧ p.weight ≤ 1 := by
  cases hg : getPref s (c, k) with
  | some q =>
      exact ⟨_, getPref_update_of_some hg d, clamp_lower _, clamp_upper _⟩
  | none =>
      exact ⟨_, getPref_update_of_none hg d, clamp_lower _, clamp_upper _⟩

theorem exists_bounded_after_applyDeltas (c k : String) (ds : List ℚ) :
    ∀ s : PrefStore,
      (∃ p, getPref s (c, k) = some p ∧ -1 ≤ p.weight ∧ p.weight ≤ 1) →
      ∃ p, getPref (applyDeltas s c k ds) (c, k) = some p ∧
        -1 ≤ p.weight ∧ p.weight ≤ 1 := by
  induction ds with
  | nil => intro s h; exact h
  | cons d rest ih =>
      intro s _
      exact ih (update_preference s c k d) (exists_bounded_after_update s c k d)

-- ===== classifier lemmas =====

theorem extract_themes_of_keyword {a : Article} (h : keywordThemes a ≠ []) (o : Oracle) :
    extract_themes o a = (keywordThemes a).take 3 := by
  cases hk : keywordThemes a with
  | nil => exact absurd hk h
  | cons x xs => simp [extract_themes, hk]

theorem classify_type_of_keyword {a : Article} {t : String}
    (h : keywordTypeMatch a = some t) (o : Oracle) : classify_type o a = t := by
  simp [classify_type, h]

theorem assess_insights_of_keyword {a : Article} (h : keywordInsights a ≠ []) (o : Oracle) :
    assess_insights o a = (keywordInsights a).take 2 := by
  cases hk : keywordInsights a with
  | nil => exact absurd hk h
  | cons x xs => simp [assess_insights, hk]

theorem keywordThemes_open_source {a : Article}
    (h : containsSubstr (articleText a) "open source" = true) :
    ∃ rest, keywordThemes a = "open_source" :: rest := by
  unfold keywordThemes THEME_KEYWORDS
  simp only [List.filter_cons, List.any_cons, h, Bool.true_or, if_true, List.map_cons]
  exact ⟨_, rfl⟩

theorem sum_map_zero (l : List String) (f : String → ℚ) (h : ∀ x, f x = 0) :
    (l.map f).sum = 0 := by
  induction l with
  | nil => rfl
  | cons x xs ih => simp [h, ih]

-- ===== claim theorems =====

/-- C1: for every sequence of `update_preference` calls on a single
`(category, key)`, with deltas of either sign, the stored weight of that key
stays within `[-1, 1]` (in particular after the 100-fold adversarial up-down
sequence, see the witness), and the first update on a never-seen key stores
`clamp delta` (with `sample_count = 1`). -/
theorem c1_weight_always_clamped :
    (∀ (s : PrefStore) (c k : String) (ds : List ℚ), ds ≠ [] →
      ∃ p, getPref (applyDeltas s c k ds) (c, k) = some p ∧
        -1 ≤ p.weight ∧ p.weight ≤ 1) ∧
    (∀ (s : PrefStore) (c k : String) (d : ℚ), getPref s (c, k) = none →
      getPref (update_preference s c k d) (c, k) = some ⟨clamp d, 1⟩) := by
  constructor
  · intro s c k ds hds
    cases ds with
    | nil => exact absurd rfl hds
    | cons d rest =>
        exact exists_bounded_after_applyDeltas c k rest _ (exists_bounded_after_update s c k d)
  · intro s c k d h
    exact getPref_update_of_none h d

/-- Witness for C1 at the adversarial `(+0.1, -0.1) × 100` delta sequence from
an empty store, and a first update with an out-of-range delta `7/2`. -/
theorem c1_witness :
    (∃ p, getPref (applyDeltas [] "source" "hackernews" seq100) ("source", "hackernews") =
        some p ∧ -1 ≤ p.weight ∧ p.weight ≤ 1) ∧
    getPref (update_preference [] "theme" "agents" (7/2)) ("theme", "agents") =
      some ⟨clamp (7/2), 1⟩ :=
  ⟨c1_weight_always_clamped.1 [] "source" "hackernews" seq100 (by decide),
   c1_weight_always_clamped.2 [] "theme" "agents" (7/2) rfl⟩

/-- C3: a preference entry with sample_count strictly below its category's
activation threshold (10 for source, 5 for theme, type and insight) contributes
exactly 0 to the score, whatever its weight; at or above the threshold it
contributes its weight times the category multiplier (2 source, 1 per theme,
1.5 type, 0.5 per insight). -/
theorem c3_activation_thresholds (prefs : PrefStore) (a : Article) (t ty i : String) :
    (∀ p, getPref prefs ("source", a.source) = some p →
      sourceContribution prefs a = if 10 ≤ p.sample_count then p.weight * 2 else 0) ∧
    (∀ p, getPref prefs ("theme", t) = some p →
      themeTerm prefs t = if 5 ≤ p.sample_count then p.weight else 0) ∧
    (∀ p, getPref prefs ("type", ty) = some p →
      typeTerm prefs ty = if 5 ≤ p.sample_count then p.weight * (3/2) else 0) ∧
    (∀ p, getPref prefs ("insight", i) = some p →
      insightTerm prefs i = if 5 ≤ p.sample_count then p.weight * (1/2) else 0) := by
  refine ⟨fun p h => ?_, fun p h => ?_, fun p h => ?_, fun p h => ?_⟩
  · simp [sourceContribution, h]
  · simp [themeTerm, h]
  · simp [typeTerm, h]
  · simp [insightTerm, h]

/-- Witness for C3 on a concrete store: source with 9 samples and weight 1,
theme with 4 samples and weight -1, and insight with 2 samples contribute 0;
type at its threshold of 5 contributes `1 * 1.5`. -/
theorem c3_witness :
    sourceContribution prefs3 a3 = 0 ∧ themeTerm prefs3 "agents" = 0 ∧
    typeTerm prefs3 "news" = 3/2 ∧ insightTerm prefs3 "hot_take" = 0 := by
  have h := c3_activation_thresholds prefs3 a3 "agents" "news" "hot_take"
  refine ⟨?_, ?_, ?_, ?_⟩
  · simpa using h.1 ⟨1, 9⟩ rfl
  · simpa using h.2.1 ⟨-1, 4⟩ rfl
  · simpa using h.2.2.1 ⟨1, 5⟩ rfl
  · simpa using h.2.2.2 ⟨1, 2⟩ rfl

/-- C4: every `update_preference` call on `(c, k)` sets that key's
sample_count to exactly one more than before (1 on a never-seen key),
whatever the sign or size of the delta, and leaves every other key's entry
unchanged. -/
theorem c4_sample_count_increment (s : PrefStore) (c k : String) (d : ℚ) :
    (∀ p, getPref s (c, k) = some p →
      getPref (update_preference s c k d) (c, k) =
        some ⟨clamp (p.weight + d), p.sample_count + 1⟩) ∧
    (getPref s (c, k) = none →
      getPref (update_preference s c k d) (c, k) = some ⟨clamp d, 1⟩) ∧
    (∀ ck' : String × String, ck' ≠ (c, k) →
      getPref (update_preference s c k d) ck' = getPref s ck') :=
  ⟨fun _ h => getPref_update_of_some h d,
   fun h => getPref_update_of_none h d,
   fun _ h => getPref_update_ne h d⟩

/-- Witness for C4: a negative delta on an existing key takes its
sample_count from 3 to 4; a first update on a new key yields sample_count 1
and leaves the existing key's entry untouched. -/
theorem c4_witness :
    getPref (update_preference s4 "source" "hn" (-(1/10))) ("source", "hn") =
      some ⟨clamp (1/2 + -(1/10)), 3 + 1⟩ ∧
    getPref (update_preference s4 "theme" "agents" (1/10)) ("theme", "agents") =
      some ⟨clamp (1/10), 1⟩ ∧
    getPref (update_preference s4 "theme" "agents" (1/10)) ("source", "hn") =
      some ⟨1/2, 3⟩ :=
  ⟨(c4_sample_count_increment s4 "source" "hn" (-(1/10))).1 ⟨1/2, 3⟩ rfl,
   (c4_sample_count_increment s4 "theme" "agents" (1/10)).2.1 rfl,
   ((c4_sample_count_increment s4 "theme" "agents" (1/10)).2.2 ("source", "hn")
     (by decide)).trans rfl⟩

/-- C5: `learn_from_rating(article_id, "neutral")` is a no-op on the
preference store, for every oracle, articles table, store and article id. -/
theorem c5_neutral_noop (o : Oracle) (articles : ArticleTable) (s : PrefStore)
    (article_id : Nat) : learn_from_rating o articles s article_id "neutral" = s := by
  simp [learn_from_rating]

/-- C6 counterexample: the article `ce6` contains the theme keyword phrase
"paper" (belonging to tag "research" in `THEME_KEYWORDS`), yet
`extract_themes` — which here never consults the fallback — returns a list
that does not contain "research": the `[:3]` truncation drops the fourth
matching tag, so a matched tag is not always in the result. -/
theorem c6_counterexample :
    THEME_KEYWORDS.any (fun tk => tk.1 = "research" && tk.2.contains "paper") = true ∧
    containsSubstr (articleText ce6) "paper" = true ∧
    keywordThemes ce6 ≠ [] ∧
    "research" ∉ extract_themes oracleNone ce6 := by
  decide

/-- C6 (amended): whenever the keyword pass of a classifier yields a
non-empty result, the external fallback is unreachable — the result equals
the truncated keyword result and is independent of the oracle; the matched
tag is contained whenever it is among the first three matches, and in
particular an article whose text contains "open source" always yields a theme
list containing "open_source". -/
theorem c6_keyword_precedence :
    (∀ (o o2 : Oracle) (a : Article), keywordThemes a ≠ [] →
      extract_themes o a = (keywordThemes a).take 3 ∧
        extract_themes o a = extract_themes o2 a) ∧
    (∀ (o : Oracle) (a : Article), containsSubstr (articleText a) "open source" = true →
      "open_source" ∈ extract_themes o a) ∧
    (∀ (o o2 : Oracle) (a : Article) (t : String), keywordTypeMatch a = some t →
      classify_type o a = t ∧ classify_type o a = classify_type o2 a) ∧
    (∀ (o o2 : Oracle) (a : Article), keywordInsights a ≠ [] →
      assess_insights o a = (keywordInsights a).take 2 ∧
        assess_insights o a = assess_insights o2 a) := by
  refine ⟨fun o o2 a h => ?_, fun o a h => ?_, fun o o2 a t h => ?_, fun o o2 a h => ?_⟩
  · exact ⟨extract_themes_of_keyword h o,
      (extract_themes_of_keyword h o).trans (extract_themes_of_keyword h o2).symm⟩
  · obtain ⟨rest, hk⟩ := keywordThemes_open_source h
    rw [extract_themes_of_keyword (by simp [hk]) o, hk]
    simp
  · exact ⟨classify_type_of_keyword h o,
      (classify_type_of_keyword h o).trans (classify_type_of_keyword h o2).symm⟩
  · exact ⟨assess_insights_of_keyword h o,
      (assess_insights_of_keyword h o).trans (assess_insights_of_keyword h o2).symm⟩

/-- Witness for C6 (amended) on the scenario article, whose keyword pass
matches themes "open_source" and "product_launch": the theme result ignores
the oracle and contains "open_source". -/
theorem c6_witness :
    extract_themes oracleX A2 = (keywordThemes A2).take 3 ∧
    extract_themes oracleX A2 = extract_themes oracleNone A2 ∧
    "open_source" ∈ extract_themes oracleX A2 :=
  ⟨(c6_keyword_precedence.1 oracleX oracleNone A2 (by decide)).1,
   (c6_keyword_precedence.1 oracleX oracleNone A2 (by decide)).2,
   c6_keyword_precedence.2.1 oracleX A2 (by decide)⟩

attribute [local semireducible] Rat.add Rat.mul Rat.inv Rat.sub in
/-- C7 counterexample: with an explicit snapshot, `score_article` on the
keyword-less article `ce7` still depends on the remote classification
response — two runs with equal article and equal snapshot but different
fallback replies return different floats, so the score is not a pure function
of its two inputs. -/
theorem c7_counterexample :
    score_article oracleNone ce7 prefsX ≠ score_article oracleX ce7 prefsX := by
  decide

/-- C7 (amended): `score_article` with an explicit snapshot never touches the
preference store, and its result is a function of the article, the snapshot
and the remote classifier's responses; whenever the keyword pass succeeds for
all three tag categories, the fallback is unreachable and the score is a pure
function of the article and the snapshot alone. -/
theorem c7_score_pure_on_keyword_articles (o o2 : Oracle) (a : Article)
    (prefs : PrefStore) (h1 : keywordThemes a ≠ []) (h2 : ∃ t, keywordTypeMatch a = some t)
    (h3 : keywordInsights a ≠ []) :
    score_article o a prefs = score_article o2 a prefs := by
  obtain ⟨t, ht⟩ := h2
  unfold score_article themeContribution typeContribution insightContribution
  rw [extract_themes_of_keyword h1 o, extract_themes_of_keyword h1 o2,
    classify_type_of_keyword ht o, classify_type_of_keyword ht o2,
    assess_insights_of_keyword h3 o, assess_insights_of_keyword h3 o2]

/-- Witness for C7 (amended): the article `a7` matches keywords in all three
categories, so its score on any snapshot is the same under the failing and
the constant oracle. -/
theorem c7_witness :
    score_article oracleNone a7 prefsX = score_article oracleX a7 prefsX :=
  c7_score_pure_on_keyword_articles oracleNone oracleX a7 prefsX (by decide)
    ⟨"research_paper", by decide⟩ (by decide)

/-- C8: `save_rating` raises a validation error exactly when the rating is
out of vocabulary, and in that case a caller's ratings table is unchanged —
no row is inserted or updated. -/
theorem c8_rating_validation (tbl : RatingsTable) (article_id : Nat) (rating : String) :
    ((∃ e, save_rating tbl article_id rating = Except.error e) ↔
      ¬(rating = "up" ∨ rating = "down" ∨ rating = "neutral")) ∧
    (¬(rating = "up" ∨ rating = "down" ∨ rating = "neutral") →
      runSave tbl article_id rating = tbl) := by
  by_cases h : rating = "up" ∨ rating = "down" ∨ rating = "neutral" <;>
    simp [save_rating, runSave, h]

/-- Witness for C8: the rating "bogus" is rejected with an error and leaves
an empty ratings table empty. -/
theorem c8_witness :
    (∃ e, save_rating [] 1 "bogus" = Except.error e) ∧ runSave [] 1 "bogus" = [] :=
  ⟨(c8_rating_validation [] 1 "bogus").1.mpr (by decide),
   (c8_rating_validation [] 1 "bogus").2 (by decide)⟩

/-- C9: after `reset_preferences`, `get_all_preferences` is the empty mapping
(every lookup misses), and every subsequent `score_article` call on that
snapshot returns only the popularity baseline term. -/
theorem c9_reset_scores_popularity_only (s : PrefStore) (o : Oracle) (a : Article)
    (ck : String × String) :
    getPref (get_all_preferences (reset_preferences s)) ck = none ∧
    score_article o a (get_all_preferences (reset_preferences s)) = popularityTerm a := by
  constructor
  · rfl
  · rw [show get_all_preferences (reset_preferences s) = [] from rfl]
    unfold score_article themeContribution typeContribution insightContribution
    rw [sum_map_zero (extract_themes o a) (themeTerm []) (fun x => rfl),
      sum_map_zero (assess_insights o a) (insightTerm []) (fun x => rfl)]
    simp [sourceContribution, typeTerm, getPref]

/-- C10: inside `learn_from_rating` every rating other than "neutral" and
"up" — including out-of-vocabulary strings — maps to signal -1 and performs
exactly the updates of a "down" rating; the function does not validate the
rating value. -/
theorem c10_unknown_rating_acts_as_down (o : Oracle) (articles : ArticleTable)
    (s : PrefStore) (article_id : Nat) (rating : String)
    (h1 : rating ≠ "neutral") (h2 : rating ≠ "up") :
    learn_from_rating o articles s article_id rating =
      learn_from_rating o articles s article_id "down" := by
  simp [learn_from_rating, h1, h2]

/-- Witness for C10: rating the existing scenario article "bogus" produces
the same store as rating it "down". -/
theorem c10_witness :
    learn_from_rating oracleNone articles2 [] 1 "bogus" =
      learn_from_rating oracleNone articles2 [] 1 "down" :=
  c10_unknown_rating_acts_as_down oracleNone articles2 [] 1 "bogus"
    (by decide) (by decide)

set_option maxRecDepth 400000 in
attribute [local semireducible] Rat.add Rat.mul Rat.inv Rat.sub in
/-- C2 counterexample: under the binary64-exact embedding of the program's
float arithmetic, ten `learn_from_rating(1, "up")` calls on the scenario
article leave the `(source, "hackernews")` preference with weight
`9007199254740991 / 9007199254740992 = 1 - 2 ^ (-53)` (Python prints it as
0.9999999999999999) and sample_count 10: the ten partial sums of the binary64
`0.1` stay strictly below 1.0, the clamp never fires, and the weight is not
1.0 as the claim states. -/
theorem c2_counterexample :
    getPref (fpLearnN 10 []) ("source", "hackernews") =
      some ⟨9007199254740991/9007199254740992, 10⟩ ∧
    (9007199254740991/9007199254740992 : ℚ) ≠ 1 ∧
    (9007199254740991/9007199254740992 : ℚ) < 1 := by
  decide

set_option maxRecDepth 400000 in
attribute [local semireducible] Rat.add Rat.mul Rat.inv Rat.sub in
/-- C2 (amended): under binary64 arithmetic, after ten
`learn_from_rating(1, "up")` calls from an empty store the
`(source, "hackernews")` preference has sample_count 10 and weight
`1 - 2 ^ (-53)`; scoring the article on the resulting snapshot includes the
source contribution `weight * 2.0 = 2 - 2 ^ (-52)`, the popularity term
`100 * 0.001 = 0.1` (exactly the binary64 `0.1`), and a non-negative
`open_source` theme contribution, for a total of
`6305039478318693 / 2 ^ 50 = 5.599999999999999 ≥ 2.1`. -/
theorem c2_binary64_scenario :
    getPref (fpLearnN 10 []) ("source", "hackernews") =
      some ⟨9007199254740991/9007199254740992, 10⟩ ∧
    fp01 = 3602879701896397/36028797018963968 ∧
    fpSourceTerm (get_all_preferences (fpLearnN 10 [])) A2 =
      9007199254740991/4503599627370496 ∧
    fpMul 100 fp0001 = fp01 ∧
    0 ≤ fpThemeTerm (get_all_preferences (fpLearnN 10 [])) "open_source" ∧
    fpScore oracleNone A2 (get_all_preferences (fpLearnN 10 [])) =
      6305039478318693/1125899906842624 ∧
    21/10 ≤ fpScore oracleNone A2 (get_all_preferences (fpLearnN 10 [])) := by
  decide
